import Mathlib

/-!
Shallow embedding of the workspace actions of the `phala-cloud` SDK slice:
`listWorkspaces` / `safeListWorkspaces` (src/js/src/actions/workspaces/list_workspaces.ts)
and `getWorkspace` / `safeGetWorkspace` (src/unnamed/part_000).

JSON values are modelled by an inductive type, zod schemas by parse
functions `Json → Except ZodError Json`, the HTTP client by a pair of
abstract functions, and each action by a pure function that also returns
the list of HTTP requests it issued (its request trace).
-/

namespace PhalaCloud

/-- JSON values, the data exchanged with the HTTP API.  Numbers are
modelled as integers (all numeric fields in the schemas at hand are
integral counts). -/
inductive Json where
  | null : Json
  | bool (b : Bool) : Json
  | num (n : Int) : Json
  | str (s : String) : Json
  | arr (elems : List Json) : Json
  | obj (fields : List (String × Json)) : Json

/-- A zod validation error: the list of issue messages.  (zod collects a
list of issues; the claims never inspect its contents, only whether
parsing succeeded.) -/
abbrev ZodError := List String

/-- A zod schema, modelled by its parse function: `.ok` is
`schema.parse` returning (resp. `safeParse` succeeding with) the given
value, `.error` is `parse` throwing (resp. `safeParse` failing with) a
`ZodError`. -/
abbrev Schema := Json → Except ZodError Json

/-- `z.string()`: accepts exactly strings, returns the input. -/
def zString : Schema := fun j =>
  match j with
  | .str _ => .ok j
  | _ => .error ["Expected string"]

/-- `z.boolean()`: accepts exactly booleans, returns the input. -/
def zBoolean : Schema := fun j =>
  match j with
  | .bool _ => .ok j
  | _ => .error ["Expected boolean"]

/-- `z.number()`: accepts exactly numbers, returns the input. -/
def zNumber : Schema := fun j =>
  match j with
  | .num _ => .ok j
  | _ => .error ["Expected number"]

/-- `.nullable()`: additionally accepts `null`. -/
def zNullable (p : Schema) : Schema := fun j =>
  match j with
  | .null => .ok .null
  | _ => p j

/-- Parse every element of a JSON array with `p` (element semantics of
`z.array(p)`). -/
def parseElems (p : Schema) : List Json → Except ZodError (List Json)
  | [] => .ok []
  | x :: xs =>
    match p x with
    | .error e => .error e
    | .ok y =>
      match parseElems p xs with
      | .error e => .error e
      | .ok ys => .ok (y :: ys)

/-- `z.array(p)`: accepts arrays whose every element `p` accepts,
returning the array of parsed elements. -/
def zArray (p : Schema) : Schema := fun j =>
  match j with
  | .arr xs =>
    match parseElems p xs with
    | .ok ys => .ok (.arr ys)
    | .error e => .error e
  | _ => .error ["Expected array"]

/-- First value bound to key `k` in a JSON object's field list. -/
def lookupField (kvs : List (String × Json)) (k : String) : Option Json :=
  match kvs with
  | [] => none
  | kv :: rest => if kv.1 = k then some kv.2 else lookupField rest k

/-- First sub-schema declared for key `k` in an object schema's shape. -/
def lookupSub (shape : List (String × Schema)) (k : String) : Option Schema :=
  match shape with
  | [] => none
  | f :: rest => if f.1 = k then some f.2 else lookupSub rest k

/-- Check that every key declared in the shape is present in the object
and that its value parses. -/
def checkShape (kvs : List (String × Json)) : List (String × Schema) → Except ZodError Unit
  | [] => .ok ()
  | f :: rest =>
    match lookupField kvs f.1 with
    | none => .error ["Required: " ++ f.1]
    | some v =>
      match f.2 v with
      | .error e => .error e
      | .ok _ => checkShape kvs rest

/-- Rebuild the object's fields: a field whose key the shape declares is
replaced by its parsed value, every other field is passed through
unchanged (the `.passthrough()` behaviour). -/
def applyShape (shape : List (String × Schema)) : List (String × Json) → List (String × Json)
  | [] => []
  | kv :: rest =>
    (match lookupSub shape kv.1 with
     | some p =>
       (kv.1, match p kv.2 with
              | .ok v => v
              | .error _ => kv.2)
     | none => kv) :: applyShape shape rest

/-- `z.object(shape).passthrough()`: accepts objects that carry every
declared key with a value its sub-schema accepts; declared keys are
mapped to their parsed values and undeclared keys are kept verbatim. -/
def zObjectPassthrough (shape : List (String × Schema)) : Schema := fun j =>
  match j with
  | .obj kvs =>
    match checkShape kvs shape with
    | .error e => .error e
    | .ok _ => .ok (.obj (applyShape shape kvs))
  | _ => .error ["Expected object"]

/-- `WorkspaceResponseSchema` of list_workspaces.ts. -/
def WorkspaceResponseSchema : Schema :=
  zObjectPassthrough
    [("id", zString),
     ("name", zString),
     ("slug", zNullable zString),
     ("tier", zString),
     ("role", zString),
     ("created_at", zString)]

/-- `PaginationMetadataSchema` of list_workspaces.ts. -/
def PaginationMetadataSchema : Schema :=
  zObjectPassthrough
    [("has_more", zBoolean),
     ("next_cursor", zNullable zString),
     ("total", zNullable zNumber)]

/-- `ListWorkspacesSchema` of list_workspaces.ts. -/
def ListWorkspacesSchema : Schema :=
  zObjectPassthrough
    [("data", zArray WorkspaceResponseSchema),
     ("pagination", PaginationMetadataSchema)]

/-! ### Parameters, client and errors -/

/-- The `schema` option of `ActionParameters<T>`: undefined (omitted),
`false` (skip validation), or a custom zod schema. -/
inductive SchemaParam where
  | omitted : SchemaParam
  | skip : SchemaParam
  | custom (s : Schema) : SchemaParam

/-- `ListWorkspacesParameters`: the schema option plus optional
pagination fields `cursor` and `limit`.  `none` is an absent (undefined)
field. -/
structure ListWorkspacesParameters where
  schema : SchemaParam
  cursor : Option String
  limit : Option Int

/-- `GetWorkspaceParameters`: just the schema option. -/
structure GetWorkspaceParameters where
  schema : SchemaParam

/-- The error thrown by `validateActionParameters` (resp. carried by the
failure result of `safeValidateActionParameters`); its contents are
never inspected by the actions, a message string suffices. -/
abbrev ParamError := String

/-- The `RequestError` a failed HTTP request produces. -/
structure HttpError where
  status : Nat
  message : String

/-- `SafeResult`: the discriminated success/failure value returned by
the safe variants (`{success: true, data}` / `{success: false, error}`). -/
inductive SafeResult (ε : Type) (α : Type) where
  | success (data : α) : SafeResult ε α
  | failure (error : ε) : SafeResult ε α

/-- Everything an action can throw: a parameter-validation error, an
HTTP request error, or a zod schema-validation error. -/
inductive ActionError where
  | paramError (e : ParamError) : ActionError
  | httpError (e : HttpError) : ActionError
  | zodError (e : ZodError) : ActionError

/-- The base HTTP client, abstracted by the outcomes of its two request
methods: `get url` either returns a JSON body or throws an `HttpError`;
`safeGet url` returns a discriminated result. -/
structure Client where
  get : String → Except HttpError Json
  safeGet : String → SafeResult HttpError Json

/-- The client's documented contract relating its two methods: `safeGet`
succeeds with `r` exactly when `get` returns `r` and fails with `e`
exactly when `get` throws `e`. -/
def SafeGetCoherent (c : Client) : Prop :=
  ∀ url, c.safeGet url =
    match c.get url with
    | .ok r => .success r
    | .error e => .failure e

/-- One HTTP request issued through the client (all the actions at hand
only ever issue GET requests). -/
inductive Request where
  | get (url : String) : Request

/-- Modelled from the spec: `validateActionParameters` /
`safeValidateActionParameters` live in `src/utils`, which is not part of
the provided slice.  The spec only says each action "validates
caller-supplied options" before issuing the request, and that the safe
variant converts the thrown error into a tagged result; we therefore
model the validator as an arbitrary function from the (optional)
parameters value to an optional parameter error — `none` meaning the
options are accepted — shared by the throwing and the safe entry point. -/
def Validator (P : Type) := Option P → Option ParamError

/-- Modelled from the spec: `safeValidateActionParameters` returns the
failure the safe action forwards when validation rejects the options,
and nothing when they are accepted — the same outcome the throwing
`validateActionParameters` decides. -/
def safeValidateActionParameters {P : Type} (v : Validator P) (p : Option P) :
    Option ParamError :=
  v p

/-! ### URL construction -/

/-- Uppercase hexadecimal digit of `n < 16`. -/
def hexDigitChar (n : Nat) : Char :=
  if n < 10 then Char.ofNat (48 + n) else Char.ofNat (55 + n)

/-- The UTF-8 encoding of a character, as a list of byte values. -/
def utf8Bytes (c : Char) : List Nat :=
  let n := c.toNat
  if n < 128 then [n]
  else if n < 2048 then [192 + n / 64, 128 + n % 64]
  else if n < 65536 then [224 + n / 4096, 128 + (n / 64) % 64, 128 + n % 64]
  else [240 + n / 262144, 128 + (n / 4096) % 64, 128 + (n / 64) % 64, 128 + n % 64]

/-- Bytes `URLSearchParams` serialises verbatim
(application/x-www-form-urlencoded: ASCII alphanumerics and
`*`, `-`, `.`, `_`). -/
def isFormSafeByte (b : Nat) : Bool :=
  (48 ≤ b && b ≤ 57) || (65 ≤ b && b ≤ 90) || (97 ≤ b && b ≤ 122) ||
  b = 42 || b = 45 || b = 46 || b = 95

/-- Serialisation of one UTF-8 byte: safe bytes verbatim, space as `+`,
everything else percent-encoded in uppercase hex. -/
def encodeFormByte (b : Nat) : String :=
  if isFormSafeByte b then String.singleton (Char.ofNat b)
  else if b = 32 then "+"
  else "%" ++ String.singleton (hexDigitChar (b / 16)) ++
    String.singleton (hexDigitChar (b % 16))

/-- application/x-www-form-urlencoded serialisation of a string, as
`URLSearchParams.toString` applies to each name and value. -/
def formUrlEncode (s : String) : String :=
  String.join ((s.data.flatMap utf8Bytes).map encodeFormByte)

/-- `URLSearchParams.toString()`: `name=value` pairs joined by `&`,
names and values form-encoded. -/
def serializeQueryParams (q : List (String × String)) : String :=
  String.intercalate "&" (q.map (fun kv => formUrlEncode kv.1 ++ "=" ++ formUrlEncode kv.2))

/-- The query pairs `listWorkspaces` appends: `cursor` when
`parameters?.cursor` is truthy (present and nonempty), then `limit` when
`parameters?.limit` is truthy (present and nonzero), stringified. -/
def listWorkspacesQuery (p : Option ListWorkspacesParameters) : List (String × String) :=
  (match p.bind (fun q => q.cursor) with
   | some c => if c = "" then [] else [("cursor", c)]
   | none => []) ++
  (match p.bind (fun q => q.limit) with
   | some n => if n = 0 then [] else [("limit", toString n)]
   | none => [])

/-- The URL `listWorkspaces` requests: `/workspaces` with the serialised
query string appended after `?` when that string is nonempty (truthy). -/
def listWorkspacesUrl (p : Option ListWorkspacesParameters) : String :=
  let qs := serializeQueryParams (listWorkspacesQuery p)
  if qs = "" then "/workspaces" else "/workspaces?" ++ qs

/-- The URL `getWorkspace` requests: the template literal
interpolating `teamSlug` after `/workspaces/`. -/
def getWorkspaceUrl (teamSlug : String) : String :=
  "/workspaces/" ++ teamSlug

/-- The `schema` option as the action reads it:
`parameters?.schema`, undefined when `parameters` itself is undefined. -/
def optSchema {P : Type} (field : P → SchemaParam) (p : Option P) : SchemaParam :=
  match p with
  | some q => field q
  | none => .omitted

/-- The schema the action parses with once `schema === false` is ruled
out: `parameters?.schema || default` — the custom schema when one is
given (a zod schema object is truthy), the default otherwise. -/
def effectiveSchema (sp : SchemaParam) (dflt : Schema) : Schema :=
  match sp with
  | .custom s => s
  | _ => dflt

/-! ### The actions

Each action is embedded as a pure function of the validator outcome, the
client and its own arguments.  The first component is the action's
outcome (`Except`: `.error` is a throw) resp. the safe variant's
`SafeResult`; the second component is the trace of HTTP requests the
invocation issued through the client, in order. -/

/-- `listWorkspaces(client, parameters)` of list_workspaces.ts. -/
def listWorkspaces (v : Validator ListWorkspacesParameters) (client : Client)
    (parameters : Option ListWorkspacesParameters) :
    Except ActionError Json × List Request :=
  match v parameters with
  | some e => (.error (.paramError e), [])
  | none =>
    let url := listWorkspacesUrl parameters
    match client.get url with
    | .error e => (.error (.httpError e), [.get url])
    | .ok response =>
      match optSchema ListWorkspacesParameters.schema parameters with
      | .skip => (.ok response, [.get url])
      | sp =>
        match effectiveSchema sp ListWorkspacesSchema response with
        | .ok parsed => (.ok parsed, [.get url])
        | .error e => (.error (.zodError e), [.get url])

/-- `safeListWorkspaces(client, parameters)` of list_workspaces.ts. -/
def safeListWorkspaces (v : Validator ListWorkspacesParameters) (client : Client)
    (parameters : Option ListWorkspacesParameters) :
    SafeResult ActionError Json × List Request :=
  match safeValidateActionParameters v parameters with
  | some e => (.failure (.paramError e), [])
  | none =>
    let url := listWorkspacesUrl parameters
    match client.safeGet url with
    | .failure e => (.failure (.httpError e), [.get url])
    | .success data =>
      match optSchema ListWorkspacesParameters.schema parameters with
      | .skip => (.success data, [.get url])
      | sp =>
        match effectiveSchema sp ListWorkspacesSchema data with
        | .ok parsed => (.success parsed, [.get url])
        | .error e => (.failure (.zodError e), [.get url])

/-- `getWorkspace(client, teamSlug, parameters)` of src/unnamed/part_000. -/
def getWorkspace (v : Validator GetWorkspaceParameters) (client : Client)
    (teamSlug : String) (parameters : Option GetWorkspaceParameters) :
    Except ActionError Json × List Request :=
  match v parameters with
  | some e => (.error (.paramError e), [])
  | none =>
    let url := getWorkspaceUrl teamSlug
    match client.get url with
    | .error e => (.error (.httpError e), [.get url])
    | .ok response =>
      match optSchema GetWorkspaceParameters.schema parameters with
      | .skip => (.ok response, [.get url])
      | sp =>
        match effectiveSchema sp WorkspaceResponseSchema response with
        | .ok parsed => (.ok parsed, [.get url])
        | .error e => (.error (.zodError e), [.get url])

/-- `safeGetWorkspace(client, teamSlug, parameters)` of src/unnamed/part_000. -/
def safeGetWorkspace (v : Validator GetWorkspaceParameters) (client : Client)
    (teamSlug : String) (parameters : Option GetWorkspaceParameters) :
    SafeResult ActionError Json × List Request :=
  match safeValidateActionParameters v parameters with
  | some e => (.failure (.paramError e), [])
  | none =>
    let url := getWorkspaceUrl teamSlug
    match client.safeGet url with
    | .failure e => (.failure (.httpError e), [.get url])
    | .success data =>
      match optSchema GetWorkspaceParameters.schema parameters with
      | .skip => (.success data, [.get url])
      | sp =>
        match effectiveSchema sp WorkspaceResponseSchema data with
        | .ok parsed => (.success parsed, [.get url])
        | .error e => (.failure (.zodError e), [.get url])

/-! ### Derived notions and test fixtures -/

/-- View of a throwing outcome as the discriminated result the safe
variant is supposed to produce for it. -/
def exceptToSafe {ε α : Type} : Except ε α → SafeResult ε α
  | .ok a => .success a
  | .error e => .failure e

/-- Outcome of the final schema-parsing step of a throwing action:
the parsed value, or the zod error thrown. -/
def parseOutcome (s : Schema) (r : Json) : Except ActionError Json :=
  match s r with
  | .ok x => .ok x
  | .error e => .error (.zodError e)

/-- Outcome of the final schema-parsing step of a safe action. -/
def safeParseOutcome (s : Schema) (d : Json) : SafeResult ActionError Json :=
  match s d with
  | .ok x => .success x
  | .error e => .failure (.zodError e)

/-- A schema that returns every value it accepts unchanged. -/
def IdOnSuccess (p : Schema) : Prop := ∀ j r, p j = .ok r → r = j

/-- A validator accepting every `ListWorkspacesParameters` value. -/
def acceptListParams : Validator ListWorkspacesParameters := fun _ => none

/-- A validator accepting every `GetWorkspaceParameters` value. -/
def acceptGetParams : Validator GetWorkspaceParameters := fun _ => none

/-- A validator rejecting every `ListWorkspacesParameters` value. -/
def rejectListParams : Validator ListWorkspacesParameters := fun _ => some "invalid parameters"

/-- A validator rejecting every `GetWorkspaceParameters` value. -/
def rejectGetParams : Validator GetWorkspaceParameters := fun _ => some "invalid parameters"

/-- A concrete workspace JSON object, carrying one field (`region`)
beyond those `WorkspaceResponseSchema` declares. -/
def sampleWorkspace : Json :=
  .obj [("id", .str "w1"), ("name", .str "Test"), ("slug", .null),
        ("tier", .str "free"), ("role", .str "owner"),
        ("created_at", .str "2024-01-01"), ("region", .str "us")]

/-- The fields of a concrete list-workspaces response body, carrying one
field (`server_time`) beyond those `ListWorkspacesSchema` declares. -/
def sampleListFields : List (String × Json) :=
  [("data", .arr [sampleWorkspace]),
   ("pagination", .obj [("has_more", .bool false), ("next_cursor", .null),
                        ("total", .num 1)]),
   ("server_time", .str "t0")]

/-- A concrete list-workspaces response body. -/
def sampleList : Json := .obj sampleListFields

/-- A client answering every request with `sampleList`, coherently on
both methods. -/
def okClient : Client :=
  ⟨fun _ => .ok sampleList, fun _ => .success sampleList⟩

/-- A client answering every request with `sampleWorkspace`, coherently
on both methods. -/
def wsClient : Client :=
  ⟨fun _ => .ok sampleWorkspace, fun _ => .success sampleWorkspace⟩

/-- A client failing every request with HTTP 500, coherently on both
methods. -/
def errClient : Client :=
  ⟨fun _ => .error ⟨500, "server error"⟩, fun _ => .failure ⟨500, "server error"⟩⟩

/-- A client agreeing with `okClient` everywhere except on the URL
`/other`, where it fails instead. -/
def okClientB : Client :=
  ⟨fun url => if url = "/other" then .error ⟨404, "not found"⟩ else .ok sampleList,
   fun url => if url = "/other" then .failure ⟨404, "not found"⟩ else .success sampleList⟩

/-! ### Safe/throwing correspondence -/

/-- On a client whose `safeGet` matches its `get`, `safeListWorkspaces`
is exactly `listWorkspaces` with the thrown error reified into the
failure result. -/
lemma safeListWorkspaces_eq (v : Validator ListWorkspacesParameters) (c : Client)
    (hc : SafeGetCoherent c) (p : Option ListWorkspacesParameters) :
    safeListWorkspaces v c p =
      (exceptToSafe (listWorkspaces v c p).1, (listWorkspaces v c p).2) := by
  unfold safeListWorkspaces listWorkspaces safeValidateActionParameters
  cases hv : v p with
  | some e => simp [exceptToSafe]
  | none =>
    dsimp only
    rw [hc (listWorkspacesUrl p)]
    cases hg : c.get (listWorkspacesUrl p) with
    | error e => simp [exceptToSafe]
    | ok r =>
      cases hsp : optSchema ListWorkspacesParameters.schema p with
      | skip => simp [exceptToSafe]
      | omitted =>
        cases hr : effectiveSchema SchemaParam.omitted ListWorkspacesSchema r <;>
          simp [exceptToSafe, hr]
      | custom s =>
        cases hr : effectiveSchema (SchemaParam.custom s) ListWorkspacesSchema r <;>
          simp [exceptToSafe, hr]

/-- On a client whose `safeGet` matches its `get`, `safeGetWorkspace`
is exactly `getWorkspace` with the thrown error reified into the
failure result. -/
lemma safeGetWorkspace_eq (v : Validator GetWorkspaceParameters) (c : Client)
    (hc : SafeGetCoherent c) (teamSlug : String) (p : Option GetWorkspaceParameters) :
    safeGetWorkspace v c teamSlug p =
      (exceptToSafe (getWorkspace v c teamSlug p).1, (getWorkspace v c teamSlug p).2) := by
  unfold safeGetWorkspace getWorkspace safeValidateActionParameters
  cases hv : v p with
  | some e => simp [exceptToSafe]
  | none =>
    dsimp only
    rw [hc (getWorkspaceUrl teamSlug)]
    cases hg : c.get (getWorkspaceUrl teamSlug) with
    | error e => simp [exceptToSafe]
    | ok r =>
      cases hsp : optSchema GetWorkspaceParameters.schema p with
      | skip => simp [exceptToSafe]
      | omitted =>
        cases hr : effectiveSchema SchemaParam.omitted WorkspaceResponseSchema r <;>
          simp [exceptToSafe, hr]
      | custom s =>
        cases hr : effectiveSchema (SchemaParam.custom s) WorkspaceResponseSchema r <;>
          simp [exceptToSafe, hr]

/-! ### Outcome shape lemmas -/

lemma listWorkspaces_reject (v : Validator ListWorkspacesParameters) (c : Client)
    (p : Option ListWorkspacesParameters) (e : ParamError) (hv : v p = some e) :
    listWorkspaces v c p = (.error (.paramError e), []) := by
  unfold listWorkspaces
  rw [hv]

lemma listWorkspaces_httpError (v : Validator ListWorkspacesParameters) (c : Client)
    (p : Option ListWorkspacesParameters) (e : HttpError) (hv : v p = none)
    (hg : c.get (listWorkspacesUrl p) = .error e) :
    listWorkspaces v c p = (.error (.httpError e), [.get (listWorkspacesUrl p)]) := by
  unfold listWorkspaces
  rw [hv]
  dsimp only
  rw [hg]

lemma listWorkspaces_success (v : Validator ListWorkspacesParameters) (c : Client)
    (p : Option ListWorkspacesParameters) (r : Json) (hv : v p = none)
    (hg : c.get (listWorkspacesUrl p) = .ok r) :
    listWorkspaces v c p =
      (match optSchema ListWorkspacesParameters.schema p with
       | .skip => .ok r
       | sp => parseOutcome (effectiveSchema sp ListWorkspacesSchema) r,
       [.get (listWorkspacesUrl p)]) := by
  unfold listWorkspaces
  rw [hv]
  dsimp only
  rw [hg]
  cases hsp : optSchema ListWorkspacesParameters.schema p with
  | skip => rfl
  | omitted =>
    unfold parseOutcome
    cases hr : effectiveSchema SchemaParam.omitted ListWorkspacesSchema r <;> simp [hr]
  | custom s =>
    unfold parseOutcome
    cases hr : effectiveSchema (SchemaParam.custom s) ListWorkspacesSchema r <;> simp [hr]

lemma getWorkspace_reject (v : Validator GetWorkspaceParameters) (c : Client)
    (teamSlug : String) (p : Option GetWorkspaceParameters) (e : ParamError)
    (hv : v p = some e) :
    getWorkspace v c teamSlug p = (.error (.paramError e), []) := by
  unfold getWorkspace
  rw [hv]

lemma getWorkspace_httpError (v : Validator GetWorkspaceParameters) (c : Client)
    (teamSlug : String) (p : Option GetWorkspaceParameters) (e : HttpError)
    (hv : v p = none) (hg : c.get (getWorkspaceUrl teamSlug) = .error e) :
    getWorkspace v c teamSlug p = (.error (.httpError e), [.get (getWorkspaceUrl teamSlug)]) := by
  unfold getWorkspace
  rw [hv]
  dsimp only
  rw [hg]

lemma getWorkspace_success (v : Validator GetWorkspaceParameters) (c : Client)
    (teamSlug : String) (p : Option GetWorkspaceParameters) (r : Json)
    (hv : v p = none) (hg : c.get (getWorkspaceUrl teamSlug) = .ok r) :
    getWorkspace v c teamSlug p =
      (match optSchema GetWorkspaceParameters.schema p with
       | .skip => .ok r
       | sp => parseOutcome (effectiveSchema sp WorkspaceResponseSchema) r,
       [.get (getWorkspaceUrl teamSlug)]) := by
  unfold getWorkspace
  rw [hv]
  dsimp only
  rw [hg]
  cases hsp : optSchema GetWorkspaceParameters.schema p with
  | skip => rfl
  | omitted =>
    unfold parseOutcome
    cases hr : effectiveSchema SchemaParam.omitted WorkspaceResponseSchema r <;> simp [hr]
  | custom s =>
    unfold parseOutcome
    cases hr : effectiveSchema (SchemaParam.custom s) WorkspaceResponseSchema r <;> simp [hr]

lemma safeListWorkspaces_reject (v : Validator ListWorkspacesParameters) (c : Client)
    (p : Option ListWorkspacesParameters) (e : ParamError) (hv : v p = some e) :
    safeListWorkspaces v c p = (.failure (.paramError e), []) := by
  unfold safeListWorkspaces safeValidateActionParameters
  rw [hv]

lemma safeListWorkspaces_httpFail (v : Validator ListWorkspacesParameters) (c : Client)
    (p : Option ListWorkspacesParameters) (e : HttpError) (hv : v p = none)
    (hg : c.safeGet (listWorkspacesUrl p) = .failure e) :
    safeListWorkspaces v c p = (.failure (.httpError e), [.get (listWorkspacesUrl p)]) := by
  unfold safeListWorkspaces safeValidateActionParameters
  rw [hv]
  dsimp only
  rw [hg]

lemma safeListWorkspaces_success (v : Validator ListWorkspacesParameters) (c : Client)
    (p : Option ListWorkspacesParameters) (d : Json) (hv : v p = none)
    (hg : c.safeGet (listWorkspacesUrl p) = .success d) :
    safeListWorkspaces v c p =
      (match optSchema ListWorkspacesParameters.schema p with
       | .skip => .success d
       | sp => safeParseOutcome (effectiveSchema sp ListWorkspacesSchema) d,
       [.get (listWorkspacesUrl p)]) := by
  unfold safeListWorkspaces safeValidateActionParameters
  rw [hv]
  dsimp only
  rw [hg]
  cases hsp : optSchema ListWorkspacesParameters.schema p with
  | skip => rfl
  | omitted =>
    unfold safeParseOutcome
    cases hr : effectiveSchema SchemaParam.omitted ListWorkspacesSchema d <;> simp [hr]
  | custom s =>
    unfold safeParseOutcome
    cases hr : effectiveSchema (SchemaParam.custom s) ListWorkspacesSchema d <;> simp [hr]

lemma safeGetWorkspace_reject (v : Validator GetWorkspaceParameters) (c : Client)
    (teamSlug : String) (p : Option GetWorkspaceParameters) (e : ParamError)
    (hv : v p = some e) :
    safeGetWorkspace v c teamSlug p = (.failure (.paramError e), []) := by
  unfold safeGetWorkspace safeValidateActionParameters
  rw [hv]

lemma safeGetWorkspace_httpFail (v : Validator GetWorkspaceParameters) (c : Client)
    (teamSlug : String) (p : Option GetWorkspaceParameters) (e : HttpError)
    (hv : v p = none) (hg : c.safeGet (getWorkspaceUrl teamSlug) = .failure e) :
    safeGetWorkspace v c teamSlug p =
      (.failure (.httpError e), [.get (getWorkspaceUrl teamSlug)]) := by
  unfold safeGetWorkspace safeValidateActionParameters
  rw [hv]
  dsimp only
  rw [hg]

lemma safeGetWorkspace_success (v : Validator GetWorkspaceParameters) (c : Client)
    (teamSlug : String) (p : Option GetWorkspaceParameters) (d : Json)
    (hv : v p = none) (hg : c.safeGet (getWorkspaceUrl teamSlug) = .success d) :
    safeGetWorkspace v c teamSlug p =
      (match optSchema GetWorkspaceParameters.schema p with
       | .skip => .success d
       | sp => safeParseOutcome (effectiveSchema sp WorkspaceResponseSchema) d,
       [.get (getWorkspaceUrl teamSlug)]) := by
  unfold safeGetWorkspace safeValidateActionParameters
  rw [hv]
  dsimp only
  rw [hg]
  cases hsp : optSchema GetWorkspaceParameters.schema p with
  | skip => rfl
  | omitted =>
    unfold safeParseOutcome
    cases hr : effectiveSchema SchemaParam.omitted WorkspaceResponseSchema d <;> simp [hr]
  | custom s =>
    unfold safeParseOutcome
    cases hr : effectiveSchema (SchemaParam.custom s) WorkspaceResponseSchema d <;> simp [hr]

/-! ### Default-schema parsing is the identity on accepted values -/

lemma zString_id : IdOnSuccess zString := by
  intro j r h
  unfold zString at h
  cases j <;> simp_all

lemma zBoolean_id : IdOnSuccess zBoolean := by
  intro j r h
  unfold zBoolean at h
  cases j <;> simp_all

lemma zNumber_id : IdOnSuccess zNumber := by
  intro j r h
  unfold zNumber at h
  cases j <;> simp_all

lemma zNullable_id (p : Schema) (hp : IdOnSuccess p) : IdOnSuccess (zNullable p) := by
  intro j r h
  unfold zNullable at h
  cases j <;> first
    | (exact (hp _ _ h))
    | simp_all

lemma parseElems_id (p : Schema) (hp : IdOnSuccess p) :
    ∀ xs ys, parseElems p xs = .ok ys → ys = xs := by
  intro xs
  induction xs with
  | nil => intro ys h; unfold parseElems at h; simp_all
  | cons x rest ih =>
    intro ys h
    unfold parseElems at h
    cases hx : p x with
    | error e => rw [hx] at h; simp_all
    | ok y =>
      rw [hx] at h
      cases hr : parseElems p rest with
      | error e => rw [hr] at h; simp_all
      | ok ys2 =>
        rw [hr] at h
        simp only [Except.ok.injEq] at h
        subst h
        rw [hp x y hx, ih ys2 hr]

lemma zArray_id (p : Schema) (hp : IdOnSuccess p) : IdOnSuccess (zArray p) := by
  intro j r h
  unfold zArray at h
  cases j <;> simp_all
  case arr xs =>
    cases hr : parseElems p xs with
    | error e => rw [hr] at h; simp_all
    | ok ys =>
      rw [hr] at h
      simp only [Except.ok.injEq] at h
      subst h
      rw [parseElems_id p hp xs ys hr]

lemma lookupSub_mem (shape : List (String × Schema)) (k : String) (p : Schema)
    (h : lookupSub shape k = some p) : ∃ k2, (k2, p) ∈ shape := by
  induction shape with
  | nil => unfold lookupSub at h; simp_all
  | cons f rest ih =>
    unfold lookupSub at h
    by_cases hk : f.1 = k
    · rw [if_pos hk] at h
      simp only [Option.some.injEq] at h
      subst h
      exact ⟨f.1, by simp⟩
    · rw [if_neg hk] at h
      obtain ⟨k2, hm⟩ := ih h
      exact ⟨k2, List.mem_cons_of_mem _ hm⟩

lemma applyShape_id (shape : List (String × Schema))
    (hs : ∀ f ∈ shape, IdOnSuccess f.2) :
    ∀ kvs, applyShape shape kvs = kvs := by
  intro kvs
  induction kvs with
  | nil => rfl
  | cons kv rest ih =>
    unfold applyShape
    rw [ih]
    cases hl : lookupSub shape kv.1 with
    | none => simp
    | some p =>
      obtain ⟨k2, hm⟩ := lookupSub_mem shape kv.1 p hl
      have hid : IdOnSuccess p := hs (k2, p) hm
      cases hx : p kv.2 with
      | error e => simp [hx]
      | ok y => simp [hx, hid kv.2 y hx]

lemma zObjectPassthrough_id (shape : List (String × Schema))
    (hs : ∀ f ∈ shape, IdOnSuccess f.2) :
    IdOnSuccess (zObjectPassthrough shape) := by
  intro j r h
  unfold zObjectPassthrough at h
  cases j <;> try simp at h
  case obj kvs =>
    cases hc : checkShape kvs shape with
    | error e => rw [hc] at h; simp at h
    | ok u =>
      rw [hc] at h
      simp only [Except.ok.injEq] at h
      subst h
      rw [applyShape_id shape hs kvs]

lemma WorkspaceResponseSchema_id : IdOnSuccess WorkspaceResponseSchema := by
  apply zObjectPassthrough_id
  intro f hf
  simp only [List.mem_cons, List.not_mem_nil, or_false] at hf
  rcases hf with rfl | rfl | rfl | rfl | rfl | rfl <;>
    first
      | exact zString_id
      | exact zNullable_id _ zString_id

lemma PaginationMetadataSchema_id : IdOnSuccess PaginationMetadataSchema := by
  apply zObjectPassthrough_id
  intro f hf
  simp only [List.mem_cons, List.not_mem_nil, or_false] at hf
  rcases hf with rfl | rfl | rfl <;>
    first
      | exact zBoolean_id
      | exact zNullable_id _ zString_id
      | exact zNullable_id _ zNumber_id

lemma ListWorkspacesSchema_id : IdOnSuccess ListWorkspacesSchema := by
  apply zObjectPassthrough_id
  intro f hf
  simp only [List.mem_cons, List.not_mem_nil, or_false] at hf
  rcases hf with rfl | rfl
  · exact zArray_id _ WorkspaceResponseSchema_id
  · exact PaginationMetadataSchema_id

/-! ### The claims -/

/-- C1: for every HTTP response `r` the client returns, each action
honours the schema override: with `schema: false` it returns `r`
unvalidated; with a custom schema `S` it returns the result of parsing
`r` with `S`, throwing the zod error on mismatch; with the schema
omitted it parses `r` with its default schema (`ListWorkspacesSchema`
for `listWorkspaces`, `WorkspaceResponseSchema` for `getWorkspace`). -/
theorem c1_schema_override
    (v : Validator ListWorkspacesParameters) (c : Client)
    (p : Option ListWorkspacesParameters) (r : Json)
    (hv : v p = none) (hr : c.get (listWorkspacesUrl p) = .ok r)
    (v2 : Validator GetWorkspaceParameters) (c2 : Client) (slug : String)
    (p2 : Option GetWorkspaceParameters) (r2 : Json)
    (hv2 : v2 p2 = none) (hr2 : c2.get (getWorkspaceUrl slug) = .ok r2) :
    (optSchema ListWorkspacesParameters.schema p = .skip →
      (listWorkspaces v c p).1 = .ok r) ∧
    (∀ S, optSchema ListWorkspacesParameters.schema p = .custom S →
      (listWorkspaces v c p).1 = parseOutcome S r) ∧
    (optSchema ListWorkspacesParameters.schema p = .omitted →
      (listWorkspaces v c p).1 = parseOutcome ListWorkspacesSchema r) ∧
    (optSchema GetWorkspaceParameters.schema p2 = .skip →
      (getWorkspace v2 c2 slug p2).1 = .ok r2) ∧
    (∀ S, optSchema GetWorkspaceParameters.schema p2 = .custom S →
      (getWorkspace v2 c2 slug p2).1 = parseOutcome S r2) ∧
    (optSchema GetWorkspaceParameters.schema p2 = .omitted →
      (getWorkspace v2 c2 slug p2).1 = parseOutcome WorkspaceResponseSchema r2) := by
  rw [listWorkspaces_success v c p r hv hr, getWorkspace_success v2 c2 slug p2 r2 hv2 hr2]
  refine ⟨?_, ?_, ?_, ?_, ?_, ?_⟩
  · intro h; rw [h]
  · intro S h; rw [h]; rfl
  · intro h; rw [h]; rfl
  · intro h; rw [h]
  · intro S h; rw [h]; rfl
  · intro h; rw [h]; rfl

/-- C1, witness: both actions at concrete inputs, with the schema
omitted, return the default-schema parse of the response. -/
theorem c1_schema_override_witness :
    (listWorkspaces acceptListParams okClient none).1 =
      parseOutcome ListWorkspacesSchema sampleList ∧
    (getWorkspace acceptGetParams wsClient "team" none).1 =
      parseOutcome WorkspaceResponseSchema sampleWorkspace :=
  ⟨(c1_schema_override acceptListParams okClient none sampleList rfl rfl
      acceptGetParams wsClient "team" none sampleWorkspace rfl rfl).2.2.1 rfl,
   (c1_schema_override acceptListParams okClient none sampleList rfl rfl
      acceptGetParams wsClient "team" none sampleWorkspace rfl rfl).2.2.2.2.2 rfl⟩

/-- C2: on a client whose `safeGet` agrees with its `get`, the safe
variant succeeds with `d` exactly when the throwing variant returns `d`,
and fails with `e` exactly when the throwing variant throws `e`
(parameter, HTTP and schema errors corresponding one to one). -/
theorem c2_safe_matches_throwing
    (v : Validator ListWorkspacesParameters) (c : Client) (hc : SafeGetCoherent c)
    (p : Option ListWorkspacesParameters)
    (v2 : Validator GetWorkspaceParameters) (slug : String)
    (p2 : Option GetWorkspaceParameters) :
    (∀ d, (safeListWorkspaces v c p).1 = .success d ↔ (listWorkspaces v c p).1 = .ok d) ∧
    (∀ e, (safeListWorkspaces v c p).1 = .failure e ↔ (listWorkspaces v c p).1 = .error e) ∧
    (∀ d, (safeGetWorkspace v2 c slug p2).1 = .success d ↔
      (getWorkspace v2 c slug p2).1 = .ok d) ∧
    (∀ e, (safeGetWorkspace v2 c slug p2).1 = .failure e ↔
      (getWorkspace v2 c slug p2).1 = .error e) := by
  rw [safeListWorkspaces_eq v c hc p, safeGetWorkspace_eq v2 c hc slug p2]
  refine ⟨?_, ?_, ?_, ?_⟩ <;> intro x
  · cases (listWorkspaces v c p).1 <;> simp [exceptToSafe]
  · cases (listWorkspaces v c p).1 <;> simp [exceptToSafe]
  · cases (getWorkspace v2 c slug p2).1 <;> simp [exceptToSafe]
  · cases (getWorkspace v2 c slug p2).1 <;> simp [exceptToSafe]

/-- C2, witness: the correspondence instantiated at a coherent concrete
client, in a succeeding and in a schema-failing run. -/
theorem c2_safe_matches_throwing_witness :
    ((safeListWorkspaces acceptListParams okClient none).1 = .success sampleList ↔
      (listWorkspaces acceptListParams okClient none).1 = .ok sampleList) ∧
    ((safeGetWorkspace acceptGetParams okClient "team" none).1 =
        .failure (.zodError ["Required: id"]) ↔
      (getWorkspace acceptGetParams okClient "team" none).1 =
        .error (.zodError ["Required: id"])) :=
  ⟨(c2_safe_matches_throwing acceptListParams okClient (fun _ => rfl) none
      acceptGetParams "team" none).1 sampleList,
   (c2_safe_matches_throwing acceptListParams okClient (fun _ => rfl) none
      acceptGetParams "team" none).2.2.2 (.zodError ["Required: id"])⟩

/-- C3: the safe variants always return a discriminated result — for
every validator, client outcome and parameters the result is a success
or a failure, and a parameter-validation failure, an HTTP failure or a
schema-validation failure each surface as the corresponding tagged
failure value, never as a throw. -/
theorem c3_safe_never_throws
    (v : Validator ListWorkspacesParameters) (c : Client)
    (p : Option ListWorkspacesParameters)
    (v2 : Validator GetWorkspaceParameters) (slug : String)
    (p2 : Option GetWorkspaceParameters) :
    ((∃ d, (safeListWorkspaces v c p).1 = .success d) ∨
     (∃ e, (safeListWorkspaces v c p).1 = .failure e)) ∧
    (∀ e, v p = some e → (safeListWorkspaces v c p).1 = .failure (.paramError e)) ∧
    (∀ e, v p = none → c.safeGet (listWorkspacesUrl p) = .failure e →
      (safeListWorkspaces v c p).1 = .failure (.httpError e)) ∧
    (∀ d ze sp, v p = none → c.safeGet (listWorkspacesUrl p) = .success d →
      optSchema ListWorkspacesParameters.schema p = sp → sp ≠ .skip →
      effectiveSchema sp ListWorkspacesSchema d = .error ze →
      (safeListWorkspaces v c p).1 = .failure (.zodError ze)) ∧
    ((∃ d, (safeGetWorkspace v2 c slug p2).1 = .success d) ∨
     (∃ e, (safeGetWorkspace v2 c slug p2).1 = .failure e)) ∧
    (∀ e, v2 p2 = some e → (safeGetWorkspace v2 c slug p2).1 = .failure (.paramError e)) ∧
    (∀ e, v2 p2 = none → c.safeGet (getWorkspaceUrl slug) = .failure e →
      (safeGetWorkspace v2 c slug p2).1 = .failure (.httpError e)) ∧
    (∀ d ze sp, v2 p2 = none → c.safeGet (getWorkspaceUrl slug) = .success d →
      optSchema GetWorkspaceParameters.schema p2 = sp → sp ≠ .skip →
      effectiveSchema sp WorkspaceResponseSchema d = .error ze →
      (safeGetWorkspace v2 c slug p2).1 = .failure (.zodError ze)) := by
  refine ⟨?_, ?_, ?_, ?_, ?_, ?_, ?_, ?_⟩
  · cases h : (safeListWorkspaces v c p).1 with
    | success d => exact Or.inl ⟨d, rfl⟩
    | failure e => exact Or.inr ⟨e, rfl⟩
  · intro e hv; rw [safeListWorkspaces_reject v c p e hv]
  · intro e hv hg; rw [safeListWorkspaces_httpFail v c p e hv hg]
  · intro d ze sp hv hg hsp hne hz
    rw [safeListWorkspaces_success v c p d hv hg, hsp]
    cases sp with
    | skip => exact absurd rfl hne
    | omitted => dsimp only; unfold safeParseOutcome; rw [hz]
    | custom s => dsimp only; unfold safeParseOutcome; rw [hz]
  · cases h : (safeGetWorkspace v2 c slug p2).1 with
    | success d => exact Or.inl ⟨d, rfl⟩
    | failure e => exact Or.inr ⟨e, rfl⟩
  · intro e hv; rw [safeGetWorkspace_reject v2 c slug p2 e hv]
  · intro e hv hg; rw [safeGetWorkspace_httpFail v2 c slug p2 e hv hg]
  · intro d ze sp hv hg hsp hne hz
    rw [safeGetWorkspace_success v2 c slug p2 d hv hg, hsp]
    cases sp with
    | skip => exact absurd rfl hne
    | omitted => dsimp only; unfold safeParseOutcome; rw [hz]
    | custom s => dsimp only; unfold safeParseOutcome; rw [hz]

/-- C3, witness: concrete runs hitting each failure stage all yield
tagged failures. -/
theorem c3_safe_never_throws_witness :
    (safeListWorkspaces rejectListParams okClient none).1 =
      .failure (.paramError "invalid parameters") ∧
    (safeListWorkspaces acceptListParams errClient none).1 =
      .failure (.httpError ⟨500, "server error"⟩) ∧
    (safeGetWorkspace acceptGetParams okClient "team" none).1 =
      .failure (.zodError ["Required: id"]) :=
  ⟨(c3_safe_never_throws rejectListParams okClient none acceptGetParams "team" none).2.1
      "invalid parameters" rfl,
   (c3_safe_never_throws acceptListParams errClient none acceptGetParams "team" none).2.2.1
      ⟨500, "server error"⟩ rfl rfl,
   (c3_safe_never_throws acceptListParams okClient none acceptGetParams "team" none).2.2.2.2.2.2.2
      sampleList ["Required: id"] .omitted rfl rfl rfl (by intro h; cases h) rfl⟩

/-- C4: when parameter validation fails, no HTTP request is issued —
for every client, the request trace of each of the four functions is
empty and the outcome is the parameter-validation error itself. -/
theorem c4_validation_precedes_request
    (v : Validator ListWorkspacesParameters) (c : Client)
    (p : Option ListWorkspacesParameters) (e : ParamError) (hv : v p = some e)
    (v2 : Validator GetWorkspaceParameters) (c2 : Client) (slug : String)
    (p2 : Option GetWorkspaceParameters) (e2 : ParamError) (hv2 : v2 p2 = some e2) :
    (listWorkspaces v c p).2 = [] ∧
    (listWorkspaces v c p).1 = .error (.paramError e) ∧
    (safeListWorkspaces v c p).2 = [] ∧
    (safeListWorkspaces v c p).1 = .failure (.paramError e) ∧
    (getWorkspace v2 c2 slug p2).2 = [] ∧
    (getWorkspace v2 c2 slug p2).1 = .error (.paramError e2) ∧
    (safeGetWorkspace v2 c2 slug p2).2 = [] ∧
    (safeGetWorkspace v2 c2 slug p2).1 = .failure (.paramError e2) := by
  rw [listWorkspaces_reject v c p e hv, safeListWorkspaces_reject v c p e hv,
    getWorkspace_reject v2 c2 slug p2 e2 hv2, safeGetWorkspace_reject v2 c2 slug p2 e2 hv2]
  exact ⟨rfl, rfl, rfl, rfl, rfl, rfl, rfl, rfl⟩

/-- C4, witness: with a rejecting validator, concrete invocations issue
no request at all. -/
theorem c4_validation_precedes_request_witness :
    (listWorkspaces rejectListParams okClient none).2 = [] ∧
    (safeGetWorkspace rejectGetParams okClient "team" none).2 = [] :=
  ⟨(c4_validation_precedes_request rejectListParams okClient none "invalid parameters" rfl
      rejectGetParams okClient "team" none "invalid parameters" rfl).1,
   (c4_validation_precedes_request rejectListParams okClient none "invalid parameters" rfl
      rejectGetParams okClient "team" none "invalid parameters" rfl).2.2.2.2.2.2.1⟩

/-- C5, counterexample: a supplied but empty cursor is dropped — the
parameters carry `cursor: ""` yet the issued request goes to the bare
path `/workspaces` with no query string, refuting "included as URL query
parameters exactly when the caller supplies them". -/
theorem c5_counterexample :
    ((some (ListWorkspacesParameters.mk .omitted (some "") none)).bind
        ListWorkspacesParameters.cursor = some "") ∧
    listWorkspacesUrl (some (ListWorkspacesParameters.mk .omitted (some "") none)) =
      "/workspaces" ∧
    (listWorkspaces acceptListParams okClient
        (some (ListWorkspacesParameters.mk .omitted (some "") none))).2 =
      [.get "/workspaces"] :=
  ⟨rfl, rfl, rfl⟩

/-- C5, amended: `listWorkspaces` issues one GET request to
`listWorkspacesUrl`, whose query contains `cursor` (resp. `limit`)
exactly when the caller supplies a truthy value — a nonempty cursor
resp. a nonzero limit — and is absent (bare `/workspaces`) when neither
truthy value is supplied; `getWorkspace` issues one GET request to
`/workspaces/` followed by the team slug. -/
theorem c5_request_paths
    (v : Validator ListWorkspacesParameters) (c : Client)
    (p : Option ListWorkspacesParameters) (hv : v p = none)
    (v2 : Validator GetWorkspaceParameters) (c2 : Client) (slug : String)
    (p2 : Option GetWorkspaceParameters) (hv2 : v2 p2 = none) :
    (listWorkspaces v c p).2 = [.get (listWorkspacesUrl p)] ∧
    (∀ s, ("cursor", s) ∈ listWorkspacesQuery p ↔
      p.bind ListWorkspacesParameters.cursor = some s ∧ s ≠ "") ∧
    (∀ s, ("limit", s) ∈ listWorkspacesQuery p ↔
      ∃ n, p.bind ListWorkspacesParameters.limit = some n ∧ n ≠ 0 ∧ s = toString n) ∧
    ((p.bind ListWorkspacesParameters.cursor = none ∨
        p.bind ListWorkspacesParameters.cursor = some "") →
     (p.bind ListWorkspacesParameters.limit = none ∨
        p.bind ListWorkspacesParameters.limit = some 0) →
     listWorkspacesUrl p = "/workspaces") ∧
    (getWorkspace v2 c2 slug p2).2 = [.get ("/workspaces/" ++ slug)] := by
  refine ⟨?_, ?_, ?_, ?_, ?_⟩
  · cases hg : c.get (listWorkspacesUrl p) with
    | error e => rw [listWorkspaces_httpError v c p e hv hg]
    | ok r => rw [listWorkspaces_success v c p r hv hg]
  · intro s
    unfold listWorkspacesQuery
    rcases hcu : p.bind ListWorkspacesParameters.cursor with _ | cu <;>
      rcases hli : p.bind ListWorkspacesParameters.limit with _ | n <;>
      simp_all <;> aesop
  · intro s
    unfold listWorkspacesQuery
    rcases hcu : p.bind ListWorkspacesParameters.cursor with _ | cu <;>
      rcases hli : p.bind ListWorkspacesParameters.limit with _ | n <;>
      simp_all
  · intro hcu hli
    unfold listWorkspacesUrl listWorkspacesQuery
    rcases hcu with hcu | hcu <;> rcases hli with hli | hli <;> rw [hcu, hli] <;> rfl
  · cases hg : c2.get (getWorkspaceUrl slug) with
    | error e =>
      rw [getWorkspace_httpError v2 c2 slug p2 e hv2 hg]
      rfl
    | ok r =>
      rw [getWorkspace_success v2 c2 slug p2 r hv2 hg]
      rfl

/-- C5, witness: concrete runs of both actions issue the single
described request. -/
theorem c5_request_paths_witness :
    (listWorkspaces acceptListParams okClient none).2 = [.get (listWorkspacesUrl none)] ∧
    (getWorkspace acceptGetParams okClient "team" none).2 = [.get ("/workspaces/" ++ "team")] :=
  ⟨(c5_request_paths acceptListParams okClient none rfl
      acceptGetParams okClient "team" none rfl).1,
   (c5_request_paths acceptListParams okClient none rfl
      acceptGetParams okClient "team" none rfl).2.2.2.2⟩

/-- C6: when parameter validation succeeds, each of the four functions
issues exactly one HTTP GET request, whatever the request or the schema
validation then does. -/
theorem c6_exactly_one_request
    (v : Validator ListWorkspacesParameters) (c : Client)
    (p : Option ListWorkspacesParameters) (hv : v p = none)
    (v2 : Validator GetWorkspaceParameters) (c2 : Client) (slug : String)
    (p2 : Option GetWorkspaceParameters) (hv2 : v2 p2 = none) :
    (listWorkspaces v c p).2 = [.get (listWorkspacesUrl p)] ∧
    (safeListWorkspaces v c p).2 = [.get (listWorkspacesUrl p)] ∧
    (getWorkspace v2 c2 slug p2).2 = [.get (getWorkspaceUrl slug)] ∧
    (safeGetWorkspace v2 c2 slug p2).2 = [.get (getWorkspaceUrl slug)] := by
  refine ⟨?_, ?_, ?_, ?_⟩
  · cases hg : c.get (listWorkspacesUrl p) with
    | error e => rw [listWorkspaces_httpError v c p e hv hg]
    | ok r => rw [listWorkspaces_success v c p r hv hg]
  · cases hg : c.safeGet (listWorkspacesUrl p) with
    | failure e => rw [safeListWorkspaces_httpFail v c p e hv hg]
    | success d => rw [safeListWorkspaces_success v c p d hv hg]
  · cases hg : c2.get (getWorkspaceUrl slug) with
    | error e => rw [getWorkspace_httpError v2 c2 slug p2 e hv2 hg]
    | ok r => rw [getWorkspace_success v2 c2 slug p2 r hv2 hg]
  · cases hg : c2.safeGet (getWorkspaceUrl slug) with
    | failure e => rw [safeGetWorkspace_httpFail v2 c2 slug p2 e hv2 hg]
    | success d => rw [safeGetWorkspace_success v2 c2 slug p2 d hv2 hg]

/-- C6, witness: even against a failing client, concrete invocations
issue exactly one request. -/
theorem c6_exactly_one_request_witness :
    (listWorkspaces acceptListParams errClient none).2 = [.get (listWorkspacesUrl none)] ∧
    (safeGetWorkspace acceptGetParams errClient "team" none).2 =
      [.get (getWorkspaceUrl "team")] :=
  ⟨(c6_exactly_one_request acceptListParams errClient none rfl
      acceptGetParams errClient "team" none rfl).1,
   (c6_exactly_one_request acceptListParams errClient none rfl
      acceptGetParams errClient "team" none rfl).2.2.2⟩

/-- C7: the actions are deterministic and stateless — two invocations
with the same parameters (and slug) against clients that produce the
same response at the one requested URL return identical results, so no
hidden state or caching can distinguish them. -/
theorem c7_deterministic
    (v : Validator ListWorkspacesParameters) (ca cb : Client)
    (p : Option ListWorkspacesParameters)
    (hget : ca.get (listWorkspacesUrl p) = cb.get (listWorkspacesUrl p))
    (hsafe : ca.safeGet (listWorkspacesUrl p) = cb.safeGet (listWorkspacesUrl p))
    (v2 : Validator GetWorkspaceParameters) (slug : String)
    (p2 : Option GetWorkspaceParameters)
    (hget2 : ca.get (getWorkspaceUrl slug) = cb.get (getWorkspaceUrl slug))
    (hsafe2 : ca.safeGet (getWorkspaceUrl slug) = cb.safeGet (getWorkspaceUrl slug)) :
    listWorkspaces v ca p = listWorkspaces v cb p ∧
    safeListWorkspaces v ca p = safeListWorkspaces v cb p ∧
    getWorkspace v2 ca slug p2 = getWorkspace v2 cb slug p2 ∧
    safeGetWorkspace v2 ca slug p2 = safeGetWorkspace v2 cb slug p2 := by
  refine ⟨?_, ?_, ?_, ?_⟩
  · unfold listWorkspaces
    cases hv : v p with
    | some e => rfl
    | none => dsimp only; rw [hget]
  · unfold safeListWorkspaces safeValidateActionParameters
    cases hv : v p with
    | some e => rfl
    | none => dsimp only; rw [hsafe]
  · unfold getWorkspace
    cases hv : v2 p2 with
    | some e => rfl
    | none => dsimp only; rw [hget2]
  · unfold safeGetWorkspace safeValidateActionParameters
    cases hv : v2 p2 with
    | some e => rfl
    | none => dsimp only; rw [hsafe2]

/-- C7, witness: two concrete clients agreeing on the requested URLs
(but not on others) give identical action results. -/
theorem c7_deterministic_witness :
    listWorkspaces acceptListParams okClient none =
      listWorkspaces acceptListParams okClientB none ∧
    safeGetWorkspace acceptGetParams okClient "team" none =
      safeGetWorkspace acceptGetParams okClientB "team" none :=
  ⟨(c7_deterministic acceptListParams okClient okClientB none rfl rfl
      acceptGetParams "team" none rfl rfl).1,
   (c7_deterministic acceptListParams okClient okClientB none rfl rfl
      acceptGetParams "team" none rfl rfl).2.2.2⟩

/-- C8: falsy pagination values are silently dropped — with
`cursor: ""` the cursor pair never reaches the query, with `limit: 0`
the limit pair never does, and with both falsy the request goes to the
bare `/workspaces`, indistinguishable from omitting the parameters. -/
theorem c8_falsy_dropped
    (sch : SchemaParam) (cu : Option String) (li : Option Int)
    (v : Validator ListWorkspacesParameters) (c : Client)
    (hv : v (some ⟨sch, some "", some 0⟩) = none) :
    (∀ s, ("cursor", s) ∉ listWorkspacesQuery (some ⟨sch, some "", li⟩)) ∧
    (∀ s, ("limit", s) ∉ listWorkspacesQuery (some ⟨sch, cu, some 0⟩)) ∧
    listWorkspacesUrl (some ⟨sch, some "", some 0⟩) = "/workspaces" ∧
    listWorkspacesUrl (some ⟨sch, some "", some 0⟩) = listWorkspacesUrl none ∧
    (listWorkspaces v c (some ⟨sch, some "", some 0⟩)).2 = [.get "/workspaces"] ∧
    (safeListWorkspaces v c (some ⟨sch, some "", some 0⟩)).2 = [.get "/workspaces"] := by
  refine ⟨?_, ?_, rfl, rfl, ?_, ?_⟩
  · intro s
    unfold listWorkspacesQuery
    rcases li with _ | n
    · simp
    · by_cases hn : n = 0 <;> simp [hn]
  · intro s
    unfold listWorkspacesQuery
    rcases cu with _ | cstr
    · simp
    · by_cases hc0 : cstr = "" <;> simp [hc0]
  · cases hg : c.get (listWorkspacesUrl (some ⟨sch, some "", some 0⟩)) with
    | error e =>
      rw [listWorkspaces_httpError v c _ e hv hg]
      rfl
    | ok r =>
      rw [listWorkspaces_success v c _ r hv hg]
      rfl
  · cases hg : c.safeGet (listWorkspacesUrl (some ⟨sch, some "", some 0⟩)) with
    | failure e =>
      rw [safeListWorkspaces_httpFail v c _ e hv hg]
      rfl
    | success d =>
      rw [safeListWorkspaces_success v c _ d hv hg]
      rfl

/-- C8, witness: the concrete falsy parameters produce the bare
request. -/
theorem c8_falsy_dropped_witness :
    listWorkspacesUrl (some ⟨SchemaParam.omitted, some "", some 0⟩) = "/workspaces" ∧
    (listWorkspaces acceptListParams okClient
        (some ⟨SchemaParam.omitted, some "", some 0⟩)).2 = [.get "/workspaces"] :=
  ⟨(c8_falsy_dropped SchemaParam.omitted (some "") (some 0)
      acceptListParams okClient rfl).2.2.1,
   (c8_falsy_dropped SchemaParam.omitted (some "") (some 0)
      acceptListParams okClient rfl).2.2.2.2.1⟩

/-- C9: the default schemas never strip fields — every value they
accept is returned unchanged, so with the default schema each action
returns the response verbatim and any extra key of the response object
is still present in the returned value. -/
theorem c9_passthrough_preserves
    (j j2 : Json)
    (v : Validator ListWorkspacesParameters) (c : Client)
    (p : Option ListWorkspacesParameters) (hv : v p = none)
    (hsp : optSchema ListWorkspacesParameters.schema p = .omitted)
    (hg : c.get (listWorkspacesUrl p) = .ok j)
    (v2 : Validator GetWorkspaceParameters) (c2 : Client) (slug : String)
    (p2 : Option GetWorkspaceParameters) (hv2 : v2 p2 = none)
    (hsp2 : optSchema GetWorkspaceParameters.schema p2 = .omitted)
    (hg2 : c2.get (getWorkspaceUrl slug) = .ok j2) :
    (∀ x, ListWorkspacesSchema j = .ok x → x = j) ∧
    (∀ x, WorkspaceResponseSchema j2 = .ok x → x = j2) ∧
    (∀ x, (listWorkspaces v c p).1 = .ok x → x = j) ∧
    (∀ x, (getWorkspace v2 c2 slug p2).1 = .ok x → x = j2) ∧
    (∀ kvs k val x, j = .obj kvs → (k, val) ∈ kvs →
      (listWorkspaces v c p).1 = .ok x → ∃ fields, x = .obj fields ∧ (k, val) ∈ fields) := by
  have h3 : ∀ x, (listWorkspaces v c p).1 = .ok x → x = j := by
    rw [listWorkspaces_success v c p j hv hg, hsp]
    dsimp only
    intro x hx
    unfold parseOutcome at hx
    simp only [effectiveSchema] at hx
    cases hL : ListWorkspacesSchema j with
    | error e => rw [hL] at hx; exact absurd hx (by simp)
    | ok y =>
      rw [hL] at hx
      simp only [Except.ok.injEq] at hx
      subst hx
      exact ListWorkspacesSchema_id j y hL
  have h4 : ∀ x, (getWorkspace v2 c2 slug p2).1 = .ok x → x = j2 := by
    rw [getWorkspace_success v2 c2 slug p2 j2 hv2 hg2, hsp2]
    dsimp only
    intro x hx
    unfold parseOutcome at hx
    simp only [effectiveSchema] at hx
    cases hL : WorkspaceResponseSchema j2 with
    | error e => rw [hL] at hx; exact absurd hx (by simp)
    | ok y =>
      rw [hL] at hx
      simp only [Except.ok.injEq] at hx
      subst hx
      exact WorkspaceResponseSchema_id j2 y hL
  refine ⟨fun x hx => ListWorkspacesSchema_id j x hx,
    fun x hx => WorkspaceResponseSchema_id j2 x hx, h3, h4, ?_⟩
  intro kvs k val x hj hmem hx
  exact ⟨kvs, by rw [h3 x hx, hj], hmem⟩

/-- C9, witness: the extra `server_time` field of a concrete response
survives the default-schema validation of `listWorkspaces`. -/
theorem c9_passthrough_preserves_witness :
    ∃ fields, sampleList = Json.obj fields ∧ ("server_time", Json.str "t0") ∈ fields :=
  (c9_passthrough_preserves sampleList sampleWorkspace
      acceptListParams okClient none rfl rfl rfl
      acceptGetParams wsClient "team" none rfl rfl rfl).2.2.2.2
    sampleListFields "server_time" (Json.str "t0") sampleList rfl
    (by simp [sampleListFields]) rfl

/-- C10: the team slug is interpolated into the request path verbatim,
with no URL encoding — for every slug the requested path is
`/workspaces/` followed by the slug itself, so the slug `a/b` yields
`/workspaces/a/b`, which is not `/workspaces/` followed by a single
slash-free segment, and `x?y=1` injects a query string. -/
theorem c10_slug_verbatim
    (v : Validator GetWorkspaceParameters) (c : Client) (slug : String)
    (p : Option GetWorkspaceParameters) (hv : v p = none) :
    getWorkspaceUrl slug = "/workspaces/" ++ slug ∧
    (getWorkspace v c slug p).2 = [.get ("/workspaces/" ++ slug)] ∧
    (safeGetWorkspace v c slug p).2 = [.get ("/workspaces/" ++ slug)] ∧
    getWorkspaceUrl "a/b" = "/workspaces/a/b" ∧
    (∀ seg : String, seg.data.contains '/' = false →
      getWorkspaceUrl "a/b" ≠ "/workspaces/" ++ seg) ∧
    getWorkspaceUrl "x?y=1" = "/workspaces/x?y=1" ∧
    ("/workspaces/x?y=1").data.contains '?' = true := by
  refine ⟨rfl, ?_, ?_, rfl, ?_, rfl, by decide⟩
  · cases hg : c.get (getWorkspaceUrl slug) with
    | error e =>
      rw [getWorkspace_httpError v c slug p e hv hg]
      rfl
    | ok r =>
      rw [getWorkspace_success v c slug p r hv hg]
      rfl
  · cases hg : c.safeGet (getWorkspaceUrl slug) with
    | failure e =>
      rw [safeGetWorkspace_httpFail v c slug p e hv hg]
      rfl
    | success d =>
      rw [safeGetWorkspace_success v c slug p d hv hg]
      rfl
  · intro seg hseg heq
    unfold getWorkspaceUrl at heq
    have hd := congrArg String.data heq
    rw [String.data_append, String.data_append] at hd
    have hseg2 := List.append_cancel_left hd
    rw [← hseg2] at hseg
    exact absurd hseg (by decide)

/-- C10, witness: the slug `a/b` reaches the client verbatim. -/
theorem c10_slug_verbatim_witness :
    (getWorkspace acceptGetParams okClient "a/b" none).2 =
      [.get ("/workspaces/" ++ "a/b")] ∧
    getWorkspaceUrl "a/b" = "/workspaces/a/b" :=
  ⟨(c10_slug_verbatim acceptGetParams okClient "a/b" none rfl).2.1,
   (c10_slug_verbatim acceptGetParams okClient "a/b" none rfl).2.2.2.1⟩

end PhalaCloud
